import Mathlib

/-!
Verification development for the RainNet image-harmonization GAN
(`models/normalize.py` and `models/networks.py`).

Tensors are modelled over real numbers.  A spatial slice of a feature map
(one batch element, one channel) is a function `ι → ℝ` on a finite index
type `ι` of spatial positions; a multi-channel tensor is `ℕ → ι → ℝ`
(channel-indexed).  Per-channel learned parameters become real scalars.
Fallible Python code is modelled with `Except`.
-/

set_option autoImplicit false

noncomputable section

namespace PA3

open Finset

variable {ι : Type} [Fintype ι]

/-- Pointwise ReLU, `nn.ReLU()`. -/
def relu (x : ℝ) : ℝ := max x 0

/-- Pointwise LeakyReLU with negative slope `slope`
(`nn.LeakyReLU()` has default slope 1/100, the discriminator uses 1/5). -/
def leakyRelu (slope x : ℝ) : ℝ := max x 0 + slope * min x 0

/-- Pointwise logistic sigmoid, `nn.Sigmoid()`. -/
def sigmoid (x : ℝ) : ℝ := 1 / (1 + Real.exp (-x))

/-! ## `models/normalize.py`: the RAIN region-aware normalizer

`RAIN` holds four learned per-channel affine vectors and `eps`.  The model
below is the per-(batch, channel) slice of the layer: the four parameters
are the scalars for the channel at hand, `x` is the spatial slice of the
feature map and `mask` is the foreground mask already resized
(`F.interpolate`) to the feature map's spatial size, as in
`RAIN.forward`. -/

structure RAIN where
  foreground_gamma : ℝ
  foreground_beta : ℝ
  background_gamma : ℝ
  background_beta : ℝ
  eps : ℝ

/-- `RAIN.get_foreground_mean_std(region, mask)`:
masked mean and std over the spatial dimensions. -/
def RAIN.get_foreground_mean_std (L : RAIN) (region mask : ι → ℝ) : ℝ × ℝ :=
  let fore := fun i => region i * mask i
  let num := ∑ i, mask i
  let tmp := ∑ i, fore i
  let mean := tmp / (num + L.eps)
  let var := (∑ i, (fore i - mean * mask i) ^ 2) / (num + L.eps)
  (mean, Real.sqrt (var + L.eps))

/-- `RAIN.forward(x, mask)` for one (batch, channel) slice; `mask` is the
foreground mask after resizing to the feature map's resolution. -/
def RAIN.forward (L : RAIN) (x mask : ι → ℝ) : ι → ℝ :=
  let foreground_mask := mask
  let ms_fore := L.get_foreground_mean_std x foreground_mask
  let background_mask := fun i => 1 - foreground_mask i
  let ms_back := L.get_foreground_mean_std x background_mask
  let normalized_background := fun i =>
    (((x i - ms_back.1) / ms_back.2) * L.background_gamma + L.background_beta) * background_mask i
  let normalized_foreground := fun i =>
    ((((x i - ms_fore.1) / ms_fore.2) * ms_back.2 + ms_back.1)
      * L.foreground_gamma + L.foreground_beta) * foreground_mask i
  fun i => normalized_foreground i + normalized_background i

/-! Spec-side formulas for claim C2 (written from the specification text,
§4.1: per-region mean, variance and std, and the two affine branches). -/

/-- Spec formula: `mean = sum(x * region_mask, over H,W) / (sum(region_mask) + eps)`. -/
def regionMean (eps : ℝ) (x m : ι → ℝ) : ℝ :=
  (∑ i, x i * m i) / ((∑ i, m i) + eps)

/-- Spec formula: `var = sum((x*region_mask - mean*region_mask)^2) / (sum(region_mask) + eps)`. -/
def regionVar (eps : ℝ) (x m : ι → ℝ) : ℝ :=
  (∑ i, (x i * m i - regionMean eps x m * m i) ^ 2) / ((∑ i, m i) + eps)

/-- Spec formula: `std = sqrt(var + eps)`. -/
def regionStd (eps : ℝ) (x m : ι → ℝ) : ℝ :=
  Real.sqrt (regionVar eps x m + eps)

/-- Spec formula for the whole RAIN output: background branch
`((x - mean_back)/std_back) * background_gamma + background_beta` masked by
the background mask, foreground branch
`(((x - mean_fore)/std_fore) * std_back + mean_back) * foreground_gamma + foreground_beta`
masked by the foreground mask, and the output is the sum of the two. -/
def RAIN.specForward (L : RAIN) (x m : ι → ℝ) : ι → ℝ := fun i =>
  ((((x i - regionMean L.eps x m) / regionStd L.eps x m)
        * regionStd L.eps x (fun j => 1 - m j)
        + regionMean L.eps x (fun j => 1 - m j))
      * L.foreground_gamma + L.foreground_beta) * m i
  + (((x i - regionMean L.eps x (fun j => 1 - m j))
        / regionStd L.eps x (fun j => 1 - m j))
      * L.background_gamma + L.background_beta) * (1 - m i)

/-- Positivity of the std returned by `get_foreground_mean_std` whenever the
mask has nonnegative sum and `eps` is positive. -/
lemma RAIN.std_pos (L : RAIN) (x mask : ι → ℝ) (heps : 0 < L.eps)
    (hmask : 0 ≤ ∑ i, mask i) : 0 < (L.get_foreground_mean_std x mask).2 := by
  have hden : 0 < (∑ i, mask i) + L.eps := by linarith
  simp only [RAIN.get_foreground_mean_std]
  refine Real.sqrt_pos.2 ?_
  have hvar : 0 ≤ (∑ i, (x i * mask i
      - (∑ j, x j * mask j) / ((∑ j, mask j) + L.eps) * mask i) ^ 2)
        / ((∑ i, mask i) + L.eps) :=
    div_nonneg (Finset.sum_nonneg fun i _ => sq_nonneg _) hden.le
  linarith

/-- C2: `RAIN.forward` computes, per region independently, the masked mean,
variance and std of the spec (`mean = Σ x·m / (Σ m + eps)`,
`var = Σ (x·m − mean·m)² / (Σ m + eps)`, `std = √(var + eps)`); the
background branch is `((x − mean_back)/std_back)·γ_b + β_b` times the
background mask, the foreground branch is
`(((x − mean_fore)/std_fore)·std_back + mean_back)·γ_f + β_f` times the
foreground mask, and the output is the elementwise sum of the two masked
branches. -/
theorem C2_rain_forward_formula (L : RAIN) (x m : ι → ℝ) :
    L.forward x m = L.specForward x m := by
  funext i
  rfl

/-- C3: with an all-zero or an all-one (resized) mask and positive `eps`,
every divisor appearing in `RAIN.forward` — the `eps`-shifted mask sums of
the two regions and the two region stds — is strictly positive, so the
per-region mean, variance and std (and hence the output) are well-defined
finite reals: the computation never divides by zero. -/
theorem C3_rain_degenerate_mask_safe (L : RAIN) (x m : ι → ℝ)
    (heps : 0 < L.eps) (hm : (∀ i, m i = 0) ∨ (∀ i, m i = 1)) :
    0 < (∑ i, m i) + L.eps ∧ 0 < (∑ i, (1 - m i)) + L.eps ∧
    0 < (L.get_foreground_mean_std x m).2 ∧
    0 < (L.get_foreground_mean_std x (fun i => 1 - m i)).2 := by
  have h0 : ∀ i, 0 ≤ m i := by
    rcases hm with h | h <;> intro i <;> simp [h i]
  have h1 : ∀ i, m i ≤ 1 := by
    rcases hm with h | h <;> intro i <;> simp [h i]
  have hf : 0 ≤ ∑ i, m i := Finset.sum_nonneg fun i _ => h0 i
  have hb : 0 ≤ ∑ i, (1 - m i) :=
    Finset.sum_nonneg fun i _ => by linarith [h1 i]
  exact ⟨by linarith, by linarith,
    L.std_pos x m heps hf, L.std_pos x (fun i => 1 - m i) heps hb⟩

/-- Concrete data for the C3 witness: default `eps = 1e-5`, a constant
feature slice on two pixels and the all-zero mask. -/
def C3w_L : RAIN := ⟨0, 0, 0, 0, 1/100000⟩

def C3w_x : Fin 2 → ℝ := fun _ => 5

def C3w_m : Fin 2 → ℝ := fun _ => 0

theorem C3_rain_degenerate_mask_safe_witness :
    0 < (∑ i, C3w_m i) + C3w_L.eps ∧
    0 < (∑ i, (1 - C3w_m i)) + C3w_L.eps ∧
    0 < (C3w_L.get_foreground_mean_std C3w_x C3w_m).2 ∧
    0 < (C3w_L.get_foreground_mean_std C3w_x (fun i => 1 - C3w_m i)).2 :=
  C3_rain_degenerate_mask_safe C3w_L C3w_x C3w_m (by norm_num [C3w_L])
    (Or.inl fun _ => rfl)

/-! ## `GANLoss` (networks.py lines 165–232)

`nn.MSELoss()` and `nn.BCEWithLogitsLoss()` use mean reduction over all
elements; `prediction.mean()` is the same mean.  A prediction tensor is a
function `ι → ℝ` over its (finite) element positions. -/

lemma sigmoid_pos (x : ℝ) : 0 < sigmoid x := by
  unfold sigmoid
  positivity

lemma sigmoid_lt_one (x : ℝ) : sigmoid x < 1 := by
  unfold sigmoid
  rw [div_lt_one (by positivity)]
  linarith [Real.exp_pos (-x)]

lemma sigmoid_le_sigmoid {x y : ℝ} (h : x ≤ y) : sigmoid x ≤ sigmoid y := by
  unfold sigmoid
  have hexp : Real.exp (-y) ≤ Real.exp (-x) := Real.exp_le_exp.2 (by linarith)
  have hy : 0 < 1 + Real.exp (-y) := by positivity
  exact one_div_le_one_div_of_le hy (by linarith)

lemma sigmoid_lt_sigmoid {x y : ℝ} (h : x < y) : sigmoid x < sigmoid y := by
  unfold sigmoid
  have hexp : Real.exp (-y) < Real.exp (-x) := Real.exp_lt_exp.2 (by linarith)
  have hy : 0 < 1 + Real.exp (-y) := by positivity
  exact one_div_lt_one_div_of_lt hy (by linarith)

inductive GanMode
  | lsgan
  | vanilla
  | wgangp

/-- The `GANLoss` module state: the selected mode and the two registered
label buffers (`target_real_label=1.0`, `target_fake_label=0.0` by
default). -/
structure GANLoss where
  gan_mode : GanMode
  real_label : ℝ
  fake_label : ℝ

/-- `GANLoss.get_target_tensor`: a constant label tensor expanded to the
prediction's shape. -/
def GANLoss.get_target_tensor (L : GANLoss) (_prediction : ι → ℝ)
    (target_is_real : Bool) : ι → ℝ :=
  fun _ => if target_is_real then L.real_label else L.fake_label

/-- Mean of a tensor (`tensor.mean()`). -/
def tmean (p : ι → ℝ) : ℝ := (∑ i, p i) / (Fintype.card ι)

/-- `nn.MSELoss()` with the default mean reduction. -/
def mseLoss (p t : ι → ℝ) : ℝ := (∑ i, (p i - t i) ^ 2) / (Fintype.card ι)

/-- `nn.BCEWithLogitsLoss()` with the default mean reduction:
`ℓ_i = −(t_i·log σ(p_i) + (1−t_i)·log(1−σ(p_i)))`. -/
def bceWithLogitsLoss (p t : ι → ℝ) : ℝ :=
  (∑ i, -(t i * Real.log (sigmoid (p i))
      + (1 - t i) * Real.log (1 - sigmoid (p i)))) / (Fintype.card ι)

/-- `GANLoss.__call__(prediction, target_is_real)`. -/
def GANLoss.call (L : GANLoss) (prediction : ι → ℝ) (target_is_real : Bool) : ℝ :=
  match L.gan_mode with
  | .lsgan => mseLoss prediction (L.get_target_tensor prediction target_is_real)
  | .vanilla => bceWithLogitsLoss prediction (L.get_target_tensor prediction target_is_real)
  | .wgangp => if target_is_real then -(tmean prediction) else tmean prediction

/-- C7: in Wasserstein (`wgangp`) mode, for every prediction tensor and
whatever the stored label buffers are, the loss is exactly
`-mean(prediction)` for a real target and `+mean(prediction)` for a fake
target (no target tensor enters the computation). -/
theorem C7_wgangp_loss (rl fl : ℝ) (pred : ι → ℝ) :
    GANLoss.call ⟨GanMode.wgangp, rl, fl⟩ pred true = -(tmean pred) ∧
    GANLoss.call ⟨GanMode.wgangp, rl, fl⟩ pred false = tmean pred :=
  ⟨rfl, rfl⟩

/-- C8 counterexample: in `vanilla` (cross-entropy-on-logits) mode with the
default labels, moving the prediction from 1 to 2 — strictly farther from
the real-label target 1.0 — strictly DECREASES the loss, contradicting the
claim that the loss increases monotonically with the deviation in both
directions. -/
theorem C8_counterexample_vanilla_decreases_above_target :
    GANLoss.call (ι := Fin 1) ⟨GanMode.vanilla, 1, 0⟩ (fun _ => 2) true <
      GANLoss.call (ι := Fin 1) ⟨GanMode.vanilla, 1, 0⟩ (fun _ => 1) true := by
  have h12 : sigmoid 1 < sigmoid 2 := sigmoid_lt_sigmoid (by norm_num)
  have hlog : Real.log (sigmoid 1) < Real.log (sigmoid 2) :=
    Real.log_lt_log (sigmoid_pos 1) h12
  simp only [GANLoss.call, bceWithLogitsLoss, GANLoss.get_target_tensor,
    if_true, Fin.sum_univ_one, Fintype.card_fin]
  push_cast
  linarith

/-- C8 amended: in least-squares (`lsgan`) mode the loss with a real target
is monotone in the pointwise deviation `|prediction − 1|` (so it increases
as predictions move away from the target in either direction); in
cross-entropy-on-logits (`vanilla`) mode the loss with a real target is
antitone in the prediction, so it increases only as the prediction moves
away from the target downward and decreases moving away upward. -/
theorem C8_amended_loss_monotonicity {ι : Type} [Fintype ι] :
    (∀ p q : ι → ℝ, (∀ i, |p i - 1| ≤ |q i - 1|) →
      GANLoss.call ⟨GanMode.lsgan, 1, 0⟩ p true ≤
        GANLoss.call ⟨GanMode.lsgan, 1, 0⟩ q true) ∧
    (∀ p q : ι → ℝ, (∀ i, p i ≤ q i) →
      GANLoss.call ⟨GanMode.vanilla, 1, 0⟩ q true ≤
        GANLoss.call ⟨GanMode.vanilla, 1, 0⟩ p true) := by
  have hcard : (0:ℝ) ≤ (Fintype.card ι : ℝ) := by positivity
  constructor
  · intro p q h
    simp only [GANLoss.call, mseLoss, GANLoss.get_target_tensor, if_true]
    have hsum : (∑ i, (p i - 1) ^ 2) ≤ ∑ i, (q i - 1) ^ 2 := by
      refine Finset.sum_le_sum fun i _ => ?_
      calc (p i - 1) ^ 2 = |p i - 1| ^ 2 := (sq_abs _).symm
        _ ≤ |q i - 1| ^ 2 := by
            exact pow_le_pow_left₀ (abs_nonneg _) (h i) 2
        _ = (q i - 1) ^ 2 := sq_abs _
    exact div_le_div_of_nonneg_right hsum hcard
  · intro p q h
    simp only [GANLoss.call, bceWithLogitsLoss, GANLoss.get_target_tensor,
      if_true]
    have hsum : (∑ i, -((1:ℝ) * Real.log (sigmoid (q i))
          + (1 - 1) * Real.log (1 - sigmoid (q i))))
        ≤ ∑ i, -((1:ℝ) * Real.log (sigmoid (p i))
          + (1 - 1) * Real.log (1 - sigmoid (p i))) := by
      refine Finset.sum_le_sum fun i _ => ?_
      have hs : sigmoid (p i) ≤ sigmoid (q i) := sigmoid_le_sigmoid (h i)
      have hl : Real.log (sigmoid (p i)) ≤ Real.log (sigmoid (q i)) :=
        Real.log_le_log (sigmoid_pos _) hs
      simp only [one_mul, sub_self, zero_mul, add_zero]
      linarith
    exact div_le_div_of_nonneg_right hsum hcard

/-- Concrete predictions for the C8 witness (one-element tensors). -/
def C8w_one : Fin 1 → ℝ := fun _ => 1

def C8w_three : Fin 1 → ℝ := fun _ => 3

def C8w_zero : Fin 1 → ℝ := fun _ => 0

theorem C8_amended_loss_monotonicity_witness :
    GANLoss.call ⟨GanMode.lsgan, 1, 0⟩ C8w_one true ≤
      GANLoss.call ⟨GanMode.lsgan, 1, 0⟩ C8w_three true ∧
    GANLoss.call ⟨GanMode.vanilla, 1, 0⟩ C8w_one true ≤
      GANLoss.call ⟨GanMode.vanilla, 1, 0⟩ C8w_zero true :=
  ⟨C8_amended_loss_monotonicity.1 C8w_one C8w_three
      (fun i => by norm_num [C8w_one, C8w_three]),
   C8_amended_loss_monotonicity.2 C8w_zero C8w_one
      (fun i => by norm_num [C8w_zero, C8w_one])⟩

/-! ## Configuration dispatch (networks.py lines 14–34, 37–58, 60–83,
172–195)

Python `str.lower()` and `str.startswith(p)` are modelled by structural
recursion over the character list of a `String`, so the dispatch functions
are fully evaluable. -/

/-- `norm_type.lower()`. -/
def pyLower (s : String) : String := ⟨s.data.map Char.toLower⟩

/-- Character-list core of `str.startswith`. -/
def charsStartWith : List Char → List Char → Bool
  | _, [] => true
  | [], _ :: _ => false
  | c :: cs, p :: ps => c == p && charsStartWith cs ps

/-- `s.startswith(pre)`. -/
def pyStartsWith (s pre : String) : Bool := charsStartWith s.data pre.data

/-- The normalization layer selected by `get_norm_layer`. -/
inductive NormKind
  | batchNorm
  | instanceNorm
  | identityNorm
  | rainNorm

/-- The generator architecture selected by `define_G`. -/
inductive GenArch
  | rainnet

/-- The discriminator architecture selected by `define_D`. -/
inductive DiscArch
  | basic
  | nLayers
  | pixel

/-- `get_norm_layer(norm_type)`: maps the normalization name to a layer
constructor, raising `NotImplementedError` on anything unrecognized. -/
def get_norm_layer (norm_type : String) : Except String NormKind :=
  let nt := pyLower norm_type
  if nt = "batch" then .ok NormKind.batchNorm
  else if nt = "instance" then .ok NormKind.instanceNorm
  else if nt = "none" then .ok NormKind.identityNorm
  else if pyStartsWith nt "rain" then .ok NormKind.rainNorm
  else .error ("normalization layer [" ++ norm_type ++ "] is not found")

/-- `define_G(..., netG, norm, ...)`: the architecture-selection core.
`get_norm_layer` runs first (its exception propagates), then the generator
name is matched. -/
def define_G (netG norm : String) : Except String GenArch :=
  match get_norm_layer norm with
  | .error e => .error e
  | .ok _norm_layer =>
    if netG = "rainnet" then .ok GenArch.rainnet
    else .error ("Generator model name [" ++ netG ++ "] is not recognized")

/-- `define_D(..., netD, ..., norm, ...)`: the architecture-selection
core. -/
def define_D (netD norm : String) : Except String DiscArch :=
  match get_norm_layer norm with
  | .error e => .error e
  | .ok _norm_layer =>
    if netD = "basic" then .ok DiscArch.basic
    else if netD = "n_layers" then .ok DiscArch.nLayers
    else if netD = "pixel" then .ok DiscArch.pixel
    else .error ("Discriminator model name [" ++ netD ++ "] is not recognized")

/-- `GANLoss.__init__(gan_mode, ...)`: the loss-mode selection. -/
def GANLoss_init (gan_mode : String) : Except String GanMode :=
  if gan_mode = "lsgan" then .ok GanMode.lsgan
  else if gan_mode = "vanilla" then .ok GanMode.vanilla
  else if gan_mode = "wgangp" then .ok GanMode.wgangp
  else .error ("gan mode " ++ gan_mode ++ " not implemented")

/-- Whether an `Except` value is an error. -/
def exceptIsError {ε α : Type} : Except ε α → Bool
  | .error _ => true
  | .ok _ => false

/-- C9: every unsupported configuration string fails fast at construction:
a normalization name outside `batch`/`instance`/`none`/`rain*` makes
`get_norm_layer` raise, an unknown generator name makes `define_G` raise,
an unknown discriminator name makes `define_D` raise, and an unknown loss
mode makes `GANLoss.__init__` raise; no unrecognized string is silently
mapped to a default. -/
theorem C9_unknown_config_fails_fast :
    (∀ s : String, pyLower s ≠ "batch" → pyLower s ≠ "instance" →
      pyLower s ≠ "none" → pyStartsWith (pyLower s) "rain" = false →
      exceptIsError (get_norm_layer s) = true) ∧
    (∀ netG norm : String, netG ≠ "rainnet" →
      exceptIsError (define_G netG norm) = true) ∧
    (∀ netD norm : String, netD ≠ "basic" → netD ≠ "n_layers" →
      netD ≠ "pixel" → exceptIsError (define_D netD norm) = true) ∧
    (∀ m : String, m ≠ "lsgan" → m ≠ "vanilla" → m ≠ "wgangp" →
      exceptIsError (GANLoss_init m) = true) := by
  refine ⟨?_, ?_, ?_, ?_⟩
  · intro s h1 h2 h3 h4
    simp only [get_norm_layer, if_neg h1, if_neg h2, if_neg h3, h4,
      Bool.false_eq_true, if_false, exceptIsError]
  · intro netG norm h
    unfold define_G
    cases get_norm_layer norm with
    | error e => rfl
    | ok v => simp only [if_neg h, exceptIsError]
  · intro netD norm h1 h2 h3
    unfold define_D
    cases get_norm_layer norm with
    | error e => rfl
    | ok v => simp only [if_neg h1, if_neg h2, if_neg h3, exceptIsError]
  · intro m h1 h2 h3
    simp only [GANLoss_init, if_neg h1, if_neg h2, if_neg h3, exceptIsError]

theorem C9_unknown_config_fails_fast_witness :
    exceptIsError (get_norm_layer "spectral") = true ∧
    exceptIsError (define_G "unet" "batch") = true ∧
    exceptIsError (define_D "multiscale" "batch") = true ∧
    exceptIsError (GANLoss_init "hinge") = true :=
  ⟨C9_unknown_config_fails_fast.1 "spectral" (by decide) (by decide)
      (by decide) (by decide),
   C9_unknown_config_fails_fast.2.1 "unet" "batch" (by decide),
   C9_unknown_config_fails_fast.2.2.1 "multiscale" "batch" (by decide)
      (by decide) (by decide),
   C9_unknown_config_fails_fast.2.2.2 "hinge" (by decide) (by decide)
      (by decide)⟩

/-! ## `PartialConv2d` (networks.py lines 592–658)

The convolution geometry is abstracted: `window p` is the set of in-bounds
input positions of output position `p`'s receptive field (zero padding
contributes nothing, exactly as in `F.conv2d`), `weight p i` the
corresponding kernel weight, and `slide_winsize` the kernel volume
`weight_maskUpdater.shape[1] * shape[2] * shape[3]`.  The all-ones
validity kernel makes the mask convolution `fun p => ∑ i ∈ window p, mask i`.
The main convolution and the mask convolution share stride, padding and
dilation, hence the same `window`.  One output channel is modelled
(`bias` is that channel's scalar).  The lazily cached
`(last_size, update_mask, mask_ratio)` triple is threaded explicitly: the
index type fixes the spatial shape, so `sizeMatches` models
`self.last_size == tuple(input.shape)` (initially false). -/

/-- The literal `1e-8` from `mask_ratio = slide_winsize / (update_mask + 1e-8)`. -/
def eps8 : ℝ := 1 / 100000000

/-- `torch.clamp(x, 0, 1)`. -/
def clamp01 (x : ℝ) : ℝ := min (max x 0) 1

structure PConv2d (ι κ : Type) where
  window : κ → Finset ι
  weight : κ → ι → ℝ
  bias : Option ℝ
  slide_winsize : ℕ

variable {κ : Type}

/-- The underlying plain convolution `super().forward(inp)`. -/
def rawConv (pc : PConv2d ι κ) (inp : ι → ℝ) : κ → ℝ :=
  fun p => (∑ i ∈ pc.window p, pc.weight p i * inp i) + pc.bias.getD 0

/-- The `torch.no_grad()` block of `PartialConv2d.forward`: the ones-kernel
convolution of the mask, then
`mask_ratio = slide_winsize / (update_mask + 1e-8)`,
`update_mask = clamp(update_mask, 0, 1)`,
`mask_ratio = mask_ratio * update_mask`.
Returns `(update_mask, mask_ratio)`. -/
def maskValidity (pc : PConv2d ι κ) (mask : ι → ℝ) : (κ → ℝ) × (κ → ℝ) :=
  let update_mask0 := fun p => ∑ i ∈ pc.window p, mask i
  let mask_ratio0 := fun p => (pc.slide_winsize : ℝ) / (update_mask0 p + eps8)
  let update_mask := fun p => clamp01 (update_mask0 p)
  let mask_ratio := fun p => mask_ratio0 p * update_mask p
  (update_mask, mask_ratio)

/-- The output computation of `PartialConv2d.forward` given the (possibly
cached) validity quantities: the raw convolution runs on `input * mask`
when an explicit mask was passed and on the raw input otherwise, and is
renormalized by `mask_ratio` (with bias removed and re-added, then gated by
`update_mask`, when a bias exists). -/
def pconvOutput (pc : PConv2d ι κ) (input : ι → ℝ) (mask_in : Option (ι → ℝ))
    (update_mask mask_ratio : κ → ℝ) : κ → ℝ :=
  let raw_out := rawConv pc
    (match mask_in with
     | some m => fun i => input i * m i
     | none => input)
  match pc.bias with
  | some b => fun p => ((raw_out p - b) * mask_ratio p + b) * update_mask p
  | none => fun p => raw_out p * mask_ratio p

/-- The memoized per-instance state `(last_size, update_mask, mask_ratio)`. -/
structure PCState (κ : Type) where
  sizeMatches : Bool
  update_mask : κ → ℝ
  mask_ratio : κ → ℝ

/-- `PartialConv2d.forward(input, mask_in)`: recomputes the validity
quantities when an explicit mask is supplied or the input shape is not the
cached one, and otherwise reuses the cached quantities.  Returns
`((output, update_mask), new_state)` (the layer has `return_mask = True`). -/
def PConv2d.forward (pc : PConv2d ι κ) (st : PCState κ) (input : ι → ℝ)
    (mask_in : Option (ι → ℝ)) : ((κ → ℝ) × (κ → ℝ)) × PCState κ :=
  if mask_in.isSome || !st.sizeMatches then
    let mask := mask_in.getD (fun _ => 1)
    let v := maskValidity pc mask
    ((pconvOutput pc input mask_in v.1 v.2, v.1), ⟨true, v.1, v.2⟩)
  else
    ((pconvOutput pc input mask_in st.update_mask st.mask_ratio,
        st.update_mask), st)

/-- The memoization-free variant of claim C5: recompute the validity
quantities from `(input, mask_in)` on every call. -/
def PConv2d.statelessForward (pc : PConv2d ι κ) (input : ι → ℝ)
    (mask_in : Option (ι → ℝ)) : (κ → ℝ) × (κ → ℝ) :=
  let v := maskValidity pc (mask_in.getD (fun _ => 1))
  (pconvOutput pc input mask_in v.1 v.2, v.1)

omit [Fintype ι] in
/-- C4: calling `PartialConv2d` with an explicitly supplied all-ones mask
(from any cache state), at an output position whose receptive field is
fully in-bounds (`window.card = slide_winsize`, which holds everywhere for
the repository's `padding=0` instances): the returned updated mask is 1 —
the clamp to `[0,1]` of the ones-kernel convolution of the mask — and the
output equals the underlying standard convolution of the raw input up to
the relative tolerance `1e-8 / slide_winsize` coming from the `1e-8`
stabilizer, i.e. within floating-point tolerance. -/
theorem C4_partialconv_allones_mask (pc : PConv2d ι κ) (st : PCState κ)
    (input mask : ι → ℝ) (p : κ)
    (hmask : ∀ i, mask i = 1)
    (hfull : (pc.window p).card = pc.slide_winsize)
    (hpos : 0 < pc.slide_winsize) :
    (pc.forward st input (some mask)).1.2 p = 1 ∧
    |(pc.forward st input (some mask)).1.1 p - rawConv pc input p| ≤
      eps8 / pc.slide_winsize * |rawConv pc input p - pc.bias.getD 0| := by
  have he : (0:ℝ) < eps8 := by norm_num [eps8]
  set W : ℝ := (pc.slide_winsize : ℝ) with hWdef
  have hW1 : (1:ℝ) ≤ W := by
    rw [hWdef]
    exact_mod_cast hpos
  have hW : (0:ℝ) < W := lt_of_lt_of_le zero_lt_one hW1
  have hcount : (∑ i ∈ pc.window p, mask i) = W := by
    simp only [hmask, Finset.sum_const, nsmul_eq_mul, mul_one, hWdef]
    rw [hfull]
  have hum : clamp01 (∑ i ∈ pc.window p, mask i) = 1 := by
    rw [hcount]
    unfold clamp01
    rw [max_eq_left hW.le, min_eq_right hW1]
  have hmasked : (fun i => input i * mask i) = input :=
    funext fun i => by rw [hmask i, mul_one]
  have hcond : ((some mask).isSome || !st.sizeMatches) = true := by simp
  have hr : W / (W + eps8) - 1 = -(eps8 / (W + eps8)) := by
    field_simp
  have hrabs : |W / (W + eps8) - 1| = eps8 / (W + eps8) := by
    rw [hr, abs_neg, abs_of_nonneg (by positivity)]
  have hrle : eps8 / (W + eps8) ≤ eps8 / W := by
    gcongr
    linarith
  have key : ∀ S C : ℝ,
      |S * (W / (W + eps8)) + C - (S + C)| ≤ eps8 / W * |S| := by
    intro S C
    have h1 : S * (W / (W + eps8)) + C - (S + C) = S * (W / (W + eps8) - 1) := by
      ring
    rw [h1, abs_mul, hrabs]
    calc |S| * (eps8 / (W + eps8)) ≤ |S| * (eps8 / W) :=
          mul_le_mul_of_nonneg_left hrle (abs_nonneg S)
      _ = eps8 / W * |S| := mul_comm _ _
  have hum2 : clamp01 W = 1 := by rw [← hcount]; exact hum
  have hsum : (∑ x ∈ pc.window p, pc.weight p x * (input x * mask x))
      = ∑ i ∈ pc.window p, pc.weight p i * input i :=
    Finset.sum_congr rfl fun i _ => by rw [hmask i, mul_one]
  unfold PConv2d.forward
  rw [if_pos hcond]
  simp only [maskValidity, pconvOutput, Option.getD_some]
  refine ⟨hum, ?_⟩
  cases hb : pc.bias with
  | none =>
    simp only [rawConv, hb, Option.getD_none, hcount, hum2, mul_one, hsum,
      add_zero, sub_zero]
    rw [← hWdef]
    have := key ((∑ i ∈ pc.window p, pc.weight p i * input i)) 0
    simpa using this
  | some b =>
    simp only [rawConv, hb, Option.getD_some, hcount, hum2, mul_one, hsum]
    rw [← hWdef]
    have h2 : (∑ i ∈ pc.window p, pc.weight p i * input i) + b - b
        = (∑ i ∈ pc.window p, pc.weight p i * input i) := by ring
    rw [h2]
    exact key ((∑ i ∈ pc.window p, pc.weight p i * input i)) b

/-- Concrete data for the C4 witness: a 1×1 kernel with unit weight, no
bias, `slide_winsize = 1`, an uninitialized cache, unit input and the
all-ones mask. -/
def C4w_pc : PConv2d (Fin 1) (Fin 1) :=
  ⟨fun _ => Finset.univ, fun _ _ => 1, none, 1⟩

def C4w_st : PCState (Fin 1) := ⟨false, fun _ => 0, fun _ => 0⟩

def C4w_input : Fin 1 → ℝ := fun _ => 1

def C4w_mask : Fin 1 → ℝ := fun _ => 1

theorem C4_partialconv_allones_mask_witness :
    (C4w_pc.forward C4w_st C4w_input (some C4w_mask)).1.2 0 = 1 ∧
    |(C4w_pc.forward C4w_st C4w_input (some C4w_mask)).1.1 0
        - rawConv C4w_pc C4w_input 0| ≤
      eps8 / C4w_pc.slide_winsize
        * |rawConv C4w_pc C4w_input 0 - C4w_pc.bias.getD 0| :=
  C4_partialconv_allones_mask C4w_pc C4w_st C4w_input C4w_mask 0
    (fun _ => rfl) (by decide) (by decide)

/-- C5 counterexample data: the same 1×1 unit-weight biasless layer, an
uninitialized cache, then a call with the all-zero explicit mask followed
by a same-shape call with the mask omitted. -/
def C5cex_pc : PConv2d (Fin 1) (Fin 1) :=
  ⟨fun _ => Finset.univ, fun _ _ => 1, none, 1⟩

def C5cex_st0 : PCState (Fin 1) := ⟨false, fun _ => 0, fun _ => 0⟩

def C5cex_zmask : Fin 1 → ℝ := fun _ => 0

def C5cex_input : Fin 1 → ℝ := fun _ => 1

/-- C5 counterexample: after a call with an explicit all-zero mask, a
same-shape call with `mask_in` omitted reuses the stale cached validity
quantities and returns 0, while the recompute-every-call variant returns
`1/(1+1e-8) ≠ 0` — the memoization IS correctness-relevant, exactly in the
case the claim singles out. -/
theorem C5_counterexample_stale_cache :
    (C5cex_pc.forward
        (C5cex_pc.forward C5cex_st0 C5cex_input (some C5cex_zmask)).2
        C5cex_input none).1.1 0
      ≠ (C5cex_pc.statelessForward C5cex_input none).1 0 := by
  simp only [C5cex_pc, C5cex_st0, C5cex_zmask, C5cex_input, PConv2d.forward,
    PConv2d.statelessForward, maskValidity, pconvOutput, rawConv, clamp01,
    eps8, Option.isSome_none, Option.isSome_some, Option.getD_none,
    Option.getD_some, Bool.false_or, Bool.true_or, Bool.not_true,
    Bool.not_false, Fin.sum_univ_one, if_true, if_false]
  norm_num

omit [Fintype ι] in
/-- C5 amended: the memoization is sound for every call that supplies an
explicit mask or runs with a not-yet-matching cached shape (in particular
the first call): such calls return exactly what the recompute-every-call
variant returns for the same `(input, mask_in)`.  It is NOT sound for a
call with `mask_in` omitted after a same-shape call with an explicit
mask (see the counterexample), so the cache is correctness-relevant. -/
theorem C5_amended_memoization_fresh_calls_sound (pc : PConv2d ι κ)
    (st : PCState κ) (input : ι → ℝ) (mask_in : Option (ι → ℝ))
    (h : mask_in.isSome = true ∨ st.sizeMatches = false) :
    (pc.forward st input mask_in).1 = pc.statelessForward input mask_in := by
  have hcond : (mask_in.isSome || !st.sizeMatches) = true := by
    rcases h with h | h <;> simp [h]
  unfold PConv2d.forward PConv2d.statelessForward
  rw [if_pos hcond]

theorem C5_amended_memoization_witness :
    (C4w_pc.forward C4w_st C4w_input none).1
      = C4w_pc.statelessForward C4w_input none :=
  C5_amended_memoization_fresh_calls_sound C4w_pc C4w_st C4w_input none
    (Or.inr rfl)

/-! ## Discriminator (networks.py lines 661–863)

A multi-channel feature tensor is `ℕ → ι → ℝ` (channel index, then spatial
index).  The seven-layer convolution pipelines of `OrgDiscriminator` are
total functions of their input (their weights are folded in):
`globalStack` is the unmasked `conv1..conv7` pipeline of lines 762–779 and
`maskedStack` the shared `conv1f..conv7f` pipeline of lines 785–821, used
for BOTH the foreground pass (mask `mf`) and the background pass (mask
`mb`) — the source reuses the same `convkf`/`normkf` modules for `xf` and
`xb`.  What is kept concrete is the mask handling around them. -/

/-- A channel-indexed feature tensor. -/
def Tensor (ι : Type) := ℕ → ι → ℝ

structure OrgDiscriminator (ι : Type) where
  globalStack : Tensor ι → Tensor ι
  maskedStack : Tensor ι → (ι → ℝ) → Tensor ι

/-- The error raised by Python when evaluating `1 - mask` with
`mask = None` (line 783, `mf, mb = mask, 1 - mask`). -/
def pyNoneSubError : String :=
  "TypeError: unsupported operand for -: int and NoneType"

/-- `OrgDiscriminator.forward(input, mask=None)`: the global branch runs
first (lines 762–779), then `mf, mb = mask, 1 - mask` — which raises a
`TypeError` when `mask` is `None` — then the foreground and background
branches (lines 785–821).  Returns `(x, xf, xb)`. -/
def OrgDiscriminator.forward (D : OrgDiscriminator ι) (input : Tensor ι)
    (mask : Option (ι → ℝ)) : Except String (Tensor ι × Tensor ι × Tensor ι) :=
  let x := D.globalStack input
  match mask with
  | none => .error pyNoneSubError
  | some mf =>
    let mb := fun i => 1 - mf i
    let xf := D.maskedStack input mf
    let xb := D.maskedStack input mb
    .ok (x, xf, xb)

/-- The three result shapes of `NLayerDiscriminator.forward`:
normal mode `(global_logit, local_similarity_map)`, feature-loss mode with
the raw feature maps appended (`torch.cat([xf, xb])` along the batch is
modelled as the pair of its two parts), and gradient-penalty mode with the
averaged score. -/
inductive DiscOut (ι : Type)
  | normal (globalLogit localSim : Tensor ι)
  | withFeat (globalLogit localSim featG : Tensor ι)
      (featL : Tensor ι × Tensor ι)
  | gpBlend (score : Tensor ι)

/-- `NLayerDiscriminator.forward(input, mask=None, gp=False,
feat_loss=False)` (lines 846–863). -/
def NLayerDiscriminator.forward {ι : Type}
    (D : OrgDiscriminator ι)
    (convl1 convl2 convl3 convg3 : Tensor ι → Tensor ι)
    (input : Tensor ι) (mask : Option (ι → ℝ)) (gp feat_loss : Bool) :
    Except String (DiscOut ι) :=
  match D.forward input mask with
  | .error e => .error e
  | .ok (x, xf, xb) =>
    let feat_l := (xf, xb)
    let feat_g := x
    let x := convg3 x
    let sim := fun c i => xf c i * xb c i
    let sim := convl1 sim
    let sim := fun c i => leakyRelu (1/5) (sim c i)
    let sim := convl2 sim
    let sim := fun c i => leakyRelu (1/5) (sim c i)
    let sim := convl3 sim
    let sim_sum := sim
    if gp = false then
      if feat_loss = true then .ok (.withFeat x sim_sum feat_g feat_l)
      else .ok (.normal x sim_sum)
    else .ok (.gpBlend (fun c i => (x c i + sim_sum c i) * (1/2)))

omit [Fintype ι] in
/-- C6: calling the discriminator with the mask argument omitted
(`mask=None`) does NOT succeed: for every input and every mode flag
combination, `NLayerDiscriminator.forward` propagates the `TypeError`
raised by `1 - mask` in `OrgDiscriminator.forward`, even though the
signature declares the mask optional with default `None`. -/
theorem C6_discriminator_mask_none_raises (D : OrgDiscriminator ι)
    (convl1 convl2 convl3 convg3 : Tensor ι → Tensor ι)
    (input : Tensor ι) (gp feat_loss : Bool) :
    NLayerDiscriminator.forward D convl1 convl2 convl3 convg3 input none
        gp feat_loss
      = Except.error pyNoneSubError := rfl

/-! ## `RainNet` (networks.py lines 282–455)

The convolution / transposed-convolution modules (`layer0..layer15`, the
1×1 attention convolutions) and the normalization modules are abstract
total functions on tensors — their learned weights are folded in; masked
normalization layers (`norm_layer8..norm_layer14`, called as
`self.norm_layerk(out, mask)` on the active code path) take the mask.
The fixed parameterless modules are concrete: `act1 = nn.LeakyReLU()`
(slope 1/100), `act2 = nn.ReLU()`, `attention1_sigmoid = nn.Sigmoid()`
(reused by all three gates, lines 421/431/441), `tanh_15 = nn.Tanh()`.
`torch.cat((a, b), 1)` with `a` of `c1` channels is `catC c1 a b`. -/

/-- Map a scalar function over every tensor entry. -/
def tmap (f : ℝ → ℝ) (t : Tensor ι) : Tensor ι := fun c i => f (t c i)

/-- Elementwise tensor product. -/
def tmul (a b : Tensor ι) : Tensor ι := fun c i => a c i * b c i

/-- `torch.cat((a, b), dim=1)` where `a` has `c1` channels. -/
def catC (c1 : ℕ) (a b : Tensor ι) : Tensor ι :=
  fun c i => if c < c1 then a c i else b (c - c1) i

structure RainNet (ι : Type) where
  input_nc : ℕ
  ngf : ℕ
  use_dropout : Bool
  use_attention : Bool
  layer0 : Tensor ι → Tensor ι
  layer1 : Tensor ι → Tensor ι
  norm_layer1 : Tensor ι → Tensor ι
  layer2 : Tensor ι → Tensor ι
  norm_layer2 : Tensor ι → Tensor ι
  layer3 : Tensor ι → Tensor ι
  norm_layer3 : Tensor ι → Tensor ι
  layer4 : Tensor ι → Tensor ι
  norm_layer4 : Tensor ι → Tensor ι
  layer5 : Tensor ι → Tensor ι
  norm_layer5 : Tensor ι → Tensor ι
  layer6 : Tensor ι → Tensor ι
  norm_layer6 : Tensor ι → Tensor ι
  layer7 : Tensor ι → Tensor ι
  layer8 : Tensor ι → Tensor ι
  norm_layer8 : Tensor ι → (ι → ℝ) → Tensor ι
  layer9 : Tensor ι → Tensor ι
  norm_layer9 : Tensor ι → (ι → ℝ) → Tensor ι
  layer10 : Tensor ι → Tensor ι
  norm_layer10 : Tensor ι → (ι → ℝ) → Tensor ι
  layer11 : Tensor ι → Tensor ι
  norm_layer11 : Tensor ι → (ι → ℝ) → Tensor ι
  layer12 : Tensor ι → Tensor ι
  norm_layer12 : Tensor ι → (ι → ℝ) → Tensor ι
  layer13 : Tensor ι → Tensor ι
  norm_layer13 : Tensor ι → (ι → ℝ) → Tensor ι
  layer14 : Tensor ι → Tensor ι
  norm_layer14 : Tensor ι → (ι → ℝ) → Tensor ι
  layer15 : Tensor ι → Tensor ι
  attention1 : Tensor ι → Tensor ι
  attention2 : Tensor ι → Tensor ι
  attention3 : Tensor ι → Tensor ι

/-- `RainNet.forward(x, mask)`, the active (uncommented) code path of
lines 361–447, including the three attention gates. -/
def RainNet.forward (net : RainNet ι) (x : Tensor ι) (mask : ι → ℝ) : Tensor ι :=
  let act1 := tmap (leakyRelu (1/100))
  let act2 := tmap relu
  let x0 := net.layer0 x
  let x1 := net.norm_layer1 (net.layer1 (act1 x0))
  let x2 := net.norm_layer2 (net.layer2 (act1 x1))
  let x3 := net.norm_layer3 (net.layer3 (act1 x2))
  let x4 := net.norm_layer4 (net.layer4 (act1 x3))
  let x5 := net.norm_layer5 (net.layer5 (act1 x4))
  let x6 := net.norm_layer6 (net.layer6 (act1 x5))
  let x7 := net.layer7 (act1 x6)
  let out := net.norm_layer8 (net.layer8 (act2 x7)) mask
  let out := catC (8 * net.ngf) out x6
  let out := net.norm_layer9 (net.layer9 (act2 out)) mask
  let out := catC (8 * net.ngf) out x5
  let out := net.norm_layer10 (net.layer10 (act2 out)) mask
  let out := catC (8 * net.ngf) out x4
  let out := net.norm_layer11 (net.layer11 (act2 out)) mask
  let out := catC (8 * net.ngf) out x3
  let out := net.norm_layer12 (net.layer12 (act2 out)) mask
  let out := catC (4 * net.ngf) out x2
  let tmp := tmap sigmoid (net.attention1 out)
  let out := tmul tmp out
  let out := net.norm_layer13 (net.layer13 (act2 out)) mask
  let out := catC (2 * net.ngf) out x1
  let tmp := tmap sigmoid (net.attention2 out)
  let out := tmul tmp out
  let out := net.norm_layer14 (net.layer14 (act2 out)) mask
  let out := catC net.ngf out x0
  let tmp := tmap sigmoid (net.attention3 out)
  let out := tmul tmp out
  tmap Real.tanh (net.layer15 out)

/-- The counterfactual of claim C10: the same forward pass with the three
attention-gate blocks removed. -/
def RainNet.forwardWithoutGates (net : RainNet ι) (x : Tensor ι)
    (mask : ι → ℝ) : Tensor ι :=
  let act1 := tmap (leakyRelu (1/100))
  let act2 := tmap relu
  let x0 := net.layer0 x
  let x1 := net.norm_layer1 (net.layer1 (act1 x0))
  let x2 := net.norm_layer2 (net.layer2 (act1 x1))
  let x3 := net.norm_layer3 (net.layer3 (act1 x2))
  let x4 := net.norm_layer4 (net.layer4 (act1 x3))
  let x5 := net.norm_layer5 (net.layer5 (act1 x4))
  let x6 := net.norm_layer6 (net.layer6 (act1 x5))
  let x7 := net.layer7 (act1 x6)
  let out := net.norm_layer8 (net.layer8 (act2 x7)) mask
  let out := catC (8 * net.ngf) out x6
  let out := net.norm_layer9 (net.layer9 (act2 out)) mask
  let out := catC (8 * net.ngf) out x5
  let out := net.norm_layer10 (net.layer10 (act2 out)) mask
  let out := catC (8 * net.ngf) out x4
  let out := net.norm_layer11 (net.layer11 (act2 out)) mask
  let out := catC (8 * net.ngf) out x3
  let out := net.norm_layer12 (net.layer12 (act2 out)) mask
  let out := catC (4 * net.ngf) out x2
  let out := net.norm_layer13 (net.layer13 (act2 out)) mask
  let out := catC (2 * net.ngf) out x1
  let out := net.norm_layer14 (net.layer14 (act2 out)) mask
  let out := catC net.ngf out x0
  tmap Real.tanh (net.layer15 out)

/-- `RainNet.processImage(x, mask, background=None)` (lines 449–455):
optional compositing over a background, optional mask concatenation when
`input_nc == 4`, the forward pass, and the final composite
`pred * mask + x[:, :3] * (1 - mask)`. -/
def RainNet.processImage (net : RainNet ι) (x : Tensor ι) (mask : ι → ℝ)
    (background : Option (Tensor ι)) : Tensor ι :=
  let x := match background with
    | some bg => fun c i => x c i * mask i + bg c i * (1 - mask i)
    | none => x
  let x := if net.input_nc = 4 then catC 3 x (fun _ i => mask i) else x
  let pred := net.forward x mask
  fun c i => pred c i * mask i + x c i * (1 - mask i)

omit [Fintype ι] in
/-- C1: `processImage(x, mask, background=None)` returns, at every
location where the mask is 0 and for every channel `c < 3`, exactly the
input pixel `x c i`: the final composite
`pred * mask + x[:, :3] * (1 - mask)` leaves every unmasked location equal
to the input's first three channels, whatever the network output is (in
particular an all-zero mask reproduces the input's first three channels
exactly). -/
theorem C1_processImage_background_preserved (net : RainNet ι) (x : Tensor ι)
    (mask : ι → ℝ) (c : ℕ) (i : ι) (hc : c < 3) (hm : mask i = 0) :
    net.processImage x mask none c i = x c i := by
  unfold RainNet.processImage
  simp only [hm, mul_zero, zero_add, sub_zero, mul_one]
  split_ifs with h4
  · simp [catC, hc]
  · rfl

/-- Concrete data for the C1 witness: a 4-input-channel net whose layers
are identities, a channel-valued input and the all-zero mask. -/
def C1w_net : RainNet (Fin 1) where
  input_nc := 4
  ngf := 0
  use_dropout := false
  use_attention := true
  layer0 := id
  layer1 := id
  norm_layer1 := id
  layer2 := id
  norm_layer2 := id
  layer3 := id
  norm_layer3 := id
  layer4 := id
  norm_layer4 := id
  layer5 := id
  norm_layer5 := id
  layer6 := id
  norm_layer6 := id
  layer7 := id
  layer8 := id
  norm_layer8 := fun t _ => t
  layer9 := id
  norm_layer9 := fun t _ => t
  layer10 := id
  norm_layer10 := fun t _ => t
  layer11 := id
  norm_layer11 := fun t _ => t
  layer12 := id
  norm_layer12 := fun t _ => t
  layer13 := id
  norm_layer13 := fun t _ => t
  layer14 := id
  norm_layer14 := fun t _ => t
  layer15 := id
  attention1 := id
  attention2 := id
  attention3 := id

def C1w_x : Tensor (Fin 1) := fun c _ => c

def C1w_mask : Fin 1 → ℝ := fun _ => 0

theorem C1_processImage_background_preserved_witness :
    C1w_net.processImage C1w_x C1w_mask none 1 0 = C1w_x 1 0 :=
  C1_processImage_background_preserved C1w_net C1w_x C1w_mask 1 0
    (by norm_num) rfl

/-- The constant all-ones tensor used by the C10 instantiation. -/
def C10cex_one : Tensor (Fin 1) := fun _ _ => 1

/-- A concrete `RainNet` instantiation whose convolution fields are
constant or identity maps, used to show the attention gating visibly
changes the forward output. -/
def C10cex_net : RainNet (Fin 1) where
  input_nc := 3
  ngf := 0
  use_dropout := false
  use_attention := false
  layer0 := fun _ => C10cex_one
  layer1 := fun _ => C10cex_one
  norm_layer1 := fun _ => C10cex_one
  layer2 := fun _ => C10cex_one
  norm_layer2 := fun _ => C10cex_one
  layer3 := fun _ => C10cex_one
  norm_layer3 := fun _ => C10cex_one
  layer4 := fun _ => C10cex_one
  norm_layer4 := fun _ => C10cex_one
  layer5 := fun _ => C10cex_one
  norm_layer5 := fun _ => C10cex_one
  layer6 := fun _ => C10cex_one
  norm_layer6 := fun _ => C10cex_one
  layer7 := fun _ => C10cex_one
  layer8 := fun _ => C10cex_one
  norm_layer8 := fun _ _ => C10cex_one
  layer9 := fun _ => C10cex_one
  norm_layer9 := fun _ _ => C10cex_one
  layer10 := fun _ => C10cex_one
  norm_layer10 := fun _ _ => C10cex_one
  layer11 := fun _ => C10cex_one
  norm_layer11 := fun _ _ => C10cex_one
  layer12 := fun _ => C10cex_one
  norm_layer12 := fun _ _ => C10cex_one
  layer13 := fun _ => C10cex_one
  norm_layer13 := fun _ _ => C10cex_one
  layer14 := fun _ => C10cex_one
  norm_layer14 := fun _ _ => C10cex_one
  layer15 := fun t => fun c i => t c i - 1
  attention1 := fun t => t
  attention2 := fun t => t
  attention3 := fun t => t

/-- C10: `RainNet.forward` applies the three sigmoid attention gates on
every forward pass regardless of the `use_attention` flag stored at
construction — the forward output is invariant under changing the flag —
and the gating is genuinely part of the computation: there is an
instantiation on which the forward output differs from the same pipeline
with the three gate blocks removed. -/
theorem C10_attention_gates_always_applied :
    (∀ (τ : Type) (net : RainNet τ) (b : Bool) (x : Tensor τ) (mask : τ → ℝ),
      RainNet.forward { net with use_attention := b } x mask
        = RainNet.forward net x mask) ∧
    (∃ (net : RainNet (Fin 1)) (x : Tensor (Fin 1)) (mask : Fin 1 → ℝ),
      RainNet.forward net x mask ≠ RainNet.forwardWithoutGates net x mask) := by
  constructor
  · intro τ net b x mask
    rfl
  · refine ⟨C10cex_net, C10cex_one, (fun _ => 1), ?_⟩
    intro h
    have h00 := congrFun (congrFun h 0) 0
    have hgate : RainNet.forward C10cex_net C10cex_one (fun _ => 1) 0 0
        = Real.tanh (sigmoid 1 - 1) := by
      simp [RainNet.forward, C10cex_net, C10cex_one, tmap, tmul, catC]
    have hnogate : RainNet.forwardWithoutGates C10cex_net C10cex_one
        (fun _ => 1) 0 0 = Real.tanh 0 := by
      simp [RainNet.forwardWithoutGates, C10cex_net, C10cex_one, tmap, catC]
    rw [hgate, hnogate, Real.tanh_zero] at h00
    have hs : sigmoid 1 - 1 < 0 := by
      have := sigmoid_lt_one 1
      linarith
    have htanh : Real.tanh (sigmoid 1 - 1) < 0 := by
      rw [Real.tanh_eq_sinh_div_cosh]
      exact div_neg_of_neg_of_pos (Real.sinh_neg_iff.2 hs) (Real.cosh_pos _)
    exact absurd h00 (ne_of_lt htanh)

end PA3

end
